import Mathlib

/-!
Shallow embedding of `src/frontend/app/security/home.tsx` (the `SecurityHome`
React Native screen) and proofs about its behavioral contract.

Modelling conventions:
* Network calls, alerts, navigations and session-clearing are recorded as an
  ordered list of `Effect`s emitted by each handler.
* The device-local secure storage holding the auth token is the `store` field
  of `World`; `getAuthToken` reads it, `clearAuthData` sets it to `none`.
  The component's React state is the `screen` field.
* An HTTP call's outcome is supplied as an `HttpResult` parameter: `ok` carries
  the parsed response body, `err` carries the optional HTTP status
  (`error.response?.status`; `none` for network/timeout errors with no
  response) and the optional backend detail message (`error.response?.data?.detail`).
* JavaScript numbers are modelled as `Int` (the claims only depend on
  zero/non-zero tests); absent object fields are `Option`.
* `console.log`/`console.error` calls are not modelled (no observable effect).
-/

namespace SecurityHome

/-- `TeamLocation`: response shape of `GET /api/security/team-location`
(`{ latitude, longitude, radius_km }`); `radius_km` may be absent. -/
structure TeamLocation where
  latitude : Int
  longitude : Int
  radius_km : Option Int
deriving DecidableEq, Repr

/-- `Panic`: `{ id, user_email, activated_at }` as rendered by the panics list. -/
structure Panic where
  id : String
  user_email : String
  activated_at : String
deriving DecidableEq, Repr

/-- `Report`: `{ id, type, caption? }` as rendered by the reports list. -/
structure Report where
  id : String
  type : String
  caption : Option String
deriving DecidableEq, Repr

/-- User metadata returned by `getUserMetadata()`; the screen only reads `role`. -/
structure UserMetadata where
  role : String
deriving DecidableEq, Repr

/-- Outcome of one HTTP request: `ok data`, or `err status detail` where
`status` is `error.response?.status` and `detail` is `error.response?.data?.detail`. -/
inductive HttpResult (α : Type) where
  | ok (data : α)
  | err (status : Option Nat) (detail : Option String)
deriving DecidableEq, Repr

/-- Observable side effects of the screen, in emission order. -/
inductive Effect where
  | httpGet (path : String)
  | httpPost (path : String) (body : String)
  | alert (title : String) (message : String)
  | navReplace (path : String)
  | navPush (path : String) (params : Option String)
  | clearAuth
deriving DecidableEq, Repr

/-- The component's `useState` state. -/
structure ScreenState where
  teamLocation : Option TeamLocation
  nearbyReports : List Report
  nearbyPanics : List Panic
  radiusKm : Int
  agentName : String
  loading : Bool
deriving DecidableEq, Repr

/-- Initial `useState` values: `null`, `[]`, `[]`, `10`, `'Agent'`, `true`. -/
def initialState : ScreenState :=
  { teamLocation := none, nearbyReports := [], nearbyPanics := [],
    radiusKm := 10, agentName := "Agent", loading := true }

/-- Component state together with the device-local token store read by
`getAuthToken()` and cleared by `clearAuthData()`. -/
structure World where
  store : Option String
  screen : ScreenState
deriving DecidableEq, Repr

/-- `loadAgentProfile`: reads the token (abort silently when absent), issues
`GET /api/user/profile`, and on a truthy `response.data?.full_name` sets
`agentName` to `full_name.split(' ')[0]`. Every error is swallowed
(`catch` only logs): no session-clear, no redirect. The response parameter
is `response.data?.full_name`. -/
def loadAgentProfile (resp : HttpResult (Option String)) (w : World) :
    List Effect × World :=
  match w.store with
  | none => ([], w)
  | some _ =>
    let es := [Effect.httpGet "/api/user/profile"]
    match resp with
    | .ok (some full_name) =>
      if full_name.isEmpty then (es, w)
      else (es, { w with screen :=
        { w.screen with agentName := (full_name.splitOn " ").headD "" } })
    | .ok none => (es, w)
    | .err _ _ => (es, w)

/-- `loadTeamLocation`: reads the token (abort silently when absent), issues
`GET /api/security/team-location`; on success stores the location and sets
`radiusKm` to `response.data.radius_km || 10` (JavaScript `||`: absent or `0`
falls back to `10`); on a 401 error clears auth data and redirects to login;
other errors are logged and leave state intact. -/
def loadTeamLocation (resp : HttpResult TeamLocation) (w : World) :
    List Effect × World :=
  match w.store with
  | none => ([], w)
  | some _ =>
    let g := Effect.httpGet "/api/security/team-location"
    match resp with
    | .ok d =>
      ([g], { w with screen := { w.screen with
        teamLocation := some d,
        radiusKm := match d.radius_km with
          | none => 10
          | some v => if v = 0 then 10 else v } })
    | .err status _ =>
      if status = some 401 then
        ([g, Effect.clearAuth, Effect.navReplace "/auth/login"],
         { w with store := none })
      else ([g], w)

/-- `loadNearbyData`: reads the token (abort silently when absent), issues the
two GETs of the `Promise.all` fan-out; only when both succeed are
`nearbyReports` and `nearbyPanics` replaced (with `data || []` guarding null
bodies). If either request fails, `Promise.all` rejects and the `catch` runs:
state is unchanged, and a 401 status on the (first) rejection clears auth data
and redirects. The first rejection is modelled as the reports error when the
reports request failed, else the panics error. -/
def loadNearbyData (reportsResp : HttpResult (Option (List Report)))
    (panicsResp : HttpResult (Option (List Panic))) (w : World) :
    List Effect × World :=
  match w.store with
  | none => ([], w)
  | some _ =>
    let gs := [Effect.httpGet "/api/security/nearby-reports",
               Effect.httpGet "/api/security/nearby-panics"]
    match reportsResp, panicsResp with
    | .ok rd, .ok pd =>
      (gs, { w with screen := { w.screen with
        nearbyReports := rd.getD [], nearbyPanics := pd.getD [] } })
    | .err status _, _ =>
      if status = some 401 then
        (gs ++ [Effect.clearAuth, Effect.navReplace "/auth/login"],
         { w with store := none })
      else (gs, w)
    | .ok _, .err status _ =>
      if status = some 401 then
        (gs ++ [Effect.clearAuth, Effect.navReplace "/auth/login"],
         { w with store := none })
      else (gs, w)

/-- `initializeScreen`: sets `loading`, reads the token (missing token:
redirect to login and abort), verifies `metadata.role === 'security'`
(mismatch: access-denied alert, redirect, abort), then sequentially awaits
the profile, team-location and nearby-data loaders and clears `loading`. -/
def initializeScreen (metadata : UserMetadata)
    (profileResp : HttpResult (Option String))
    (locResp : HttpResult TeamLocation)
    (reportsResp : HttpResult (Option (List Report)))
    (panicsResp : HttpResult (Option (List Panic)))
    (w : World) : List Effect × World :=
  let w0 : World := { w with screen := { w.screen with loading := true } }
  match w0.store with
  | none => ([Effect.navReplace "/auth/login"], w0)
  | some _ =>
    if metadata.role ≠ "security" then
      ([Effect.alert "Access Denied" "Security access required",
        Effect.navReplace "/auth/login"], w0)
    else
      let r1 := loadAgentProfile profileResp w0
      let r2 := loadTeamLocation locResp r1.2
      let r3 := loadNearbyData reportsResp panicsResp r2.2
      (r1.1 ++ r2.1 ++ r3.1,
       { r3.2 with screen := { r3.2.screen with loading := false } })

/-- The HTTP outcomes supplied to one 30-second interval tick of
`loadNearbyData`. -/
structure TickEnv where
  reportsResp : HttpResult (Option (List Report))
  panicsResp : HttpResult (Option (List Panic))
deriving DecidableEq, Repr

/-- The environment of a mount: the stored user metadata and the HTTP outcomes
of the initialization's requests. -/
structure MountEnv where
  metadata : UserMetadata
  profileResp : HttpResult (Option String)
  locResp : HttpResult TeamLocation
  reportsResp : HttpResult (Option (List Report))
  panicsResp : HttpResult (Option (List Panic))
deriving DecidableEq, Repr

/-- Runs the 30-second interval callbacks (`setInterval(loadNearbyData, 30000)`)
for the given sequence of tick environments, threading the world. Returns the
per-tick effect lists. -/
def runTicks : List TickEnv → World → List (List Effect) × World
  | [], w => ([], w)
  | t :: ts, w =>
    let r := loadNearbyData t.reportsResp t.panicsResp w
    let rs := runTicks ts r.2
    (r.1 :: rs.1, rs.2)

/-- One mounted lifetime of the screen: the `useEffect` runs
`initializeScreen()` and installs the interval; `ticks` lists the 30-second
ticks that fire before unmount (`clearInterval` in the cleanup stops the timer
at unmount, so the trace is finite and nothing runs after it). Returns the
mount-phase effects and the per-tick effect lists. -/
def mountedLifetime (env : MountEnv) (ticks : List TickEnv) (w : World) :
    (List Effect × List (List Effect)) × World :=
  let m := initializeScreen env.metadata env.profileResp env.locResp
    env.reportsResp env.panicsResp w
  let r := runTicks ticks m.2
  ((m.1, r.1), r.2)

/-- JSX condition of the warning banner:
`!teamLocation || (teamLocation.latitude === 0 && teamLocation.longitude === 0)`. -/
def showWarningBanner (loc : Option TeamLocation) : Bool :=
  match loc with
  | none => true
  | some l => l.latitude = 0 && l.longitude = 0

/-- JSX condition selecting the `Radius: ...km` branch of the location-card
subtitle: `teamLocation && teamLocation.latitude !== 0`. -/
def showRadiusSubtitle (loc : Option TeamLocation) : Bool :=
  match loc with
  | none => false
  | some l => l.latitude ≠ 0

/-- The location-card subtitle ternary:
`teamLocation && teamLocation.latitude !== 0 ? Radius : Not Set`. -/
def locationSubtitle (loc : Option TeamLocation) (radiusKm : Int) : String :=
  if showRadiusSubtitle loc then "Radius: " ++ toString radiusKm ++ "km"
  else "⚠️ Not Set - Click to Set"

/-- The panic cards rendered on the dashboard: `nearbyPanics.slice(0, 3)`. -/
def displayedPanics (l : List Panic) : List Panic := l.take 3

/-- The report cards rendered on the dashboard: `nearbyReports.slice(0, 3)`. -/
def displayedReports (l : List Report) : List Report := l.take 3

/-- JavaScript `String.prototype.trim()`, modelled over the character list:
leading and trailing whitespace removed. -/
def jsTrim (s : String) : String :=
  ⟨((s.data.dropWhile Char.isWhitespace).reverse.dropWhile Char.isWhitespace).reverse⟩

/-- `handleSearch`: empty trimmed input is rejected with a local alert and no
network call; otherwise the token is read (missing: redirect to login, no
request), the trimmed term is POSTed to `/api/security/search-user`, and the
result navigates to the tracking screen (success), or alerts + clears session +
redirects (401), or alerts with the backend detail / generic fallback
(other errors). The `ok` payload is the serialized response body passed as the
`userData` navigation parameter. -/
def handleSearch (searchTerm : String) (resp : HttpResult String) (w : World) :
    List Effect × World :=
  if jsTrim searchTerm = "" then
    ([Effect.alert "Error" "Please enter phone or email"], w)
  else
    match w.store with
    | none => ([Effect.navReplace "/auth/login"], w)
    | some _ =>
      let post := Effect.httpPost "/api/security/search-user" (jsTrim searchTerm)
      match resp with
      | .ok data =>
        ([post, Effect.navPush "/security/user-track" (some data)], w)
      | .err status detail =>
        if status = some 401 then
          ([post, Effect.alert "Session Expired" "Please login again",
            Effect.clearAuth, Effect.navReplace "/auth/login"],
           { w with store := none })
        else
          ([post, Effect.alert "Not Found" (detail.getD "User not found")], w)


/-- Claim C7: the warning banner is shown exactly when no team location has
been loaded or the loaded location is the (0, 0) sentinel; for every other
coordinate pair the banner is hidden. -/
theorem C7_warning_banner_iff (loc : Option TeamLocation) :
    showWarningBanner loc = true ↔
      (loc = none ∨ ∃ l, loc = some l ∧ l.latitude = 0 ∧ l.longitude = 0) := by
  cases loc with
  | none => simp [showWarningBanner]
  | some l => simp [showWarningBanner]

/-- Claim C8: the dashboard renders at most 3 panic cards and at most 3 report
cards, namely the first elements of the fetched lists in order (a prefix). -/
theorem C8_display_truncation (panics : List Panic) (reports : List Report) :
    (displayedPanics panics).length ≤ 3 ∧
    (∃ rest, panics = displayedPanics panics ++ rest) ∧
    (displayedReports reports).length ≤ 3 ∧
    (∃ rest, reports = displayedReports reports ++ rest) := by
  refine ⟨?_, ⟨panics.drop 3, ?_⟩, ?_, ⟨reports.drop 3, ?_⟩⟩ <;>
    simp [displayedPanics, displayedReports, List.length_take]

/-- Claim C9 fails as stated: a successful team-location response that does
contain a `radius_km` field with value 0 yields the default 10, not the value
from the response, because the source computes `response.data.radius_km || 10`
and JavaScript `||` treats 0 as absent. -/
theorem C9_counterexample :
    (loadTeamLocation (.ok ⟨6, 7, some 0⟩)
        ⟨some "tok", initialState⟩).2.screen.radiusKm = 10 ∧
    (TeamLocation.mk 6 7 (some 0)).radius_km = some 0 ∧ (10 : Int) ≠ 0 := by
  decide

/-- Claim C9 amended: on a successful team-location response the displayed
radius is the default 10 when `radius_km` is absent or 0 (falsy), and is the
response value for any non-zero `radius_km`. -/
theorem C9_amended_radius_default (tok : String) (s : ScreenState)
    (loc : TeamLocation) :
    ((loc.radius_km = none ∨ loc.radius_km = some 0) →
      (loadTeamLocation (.ok loc) ⟨some tok, s⟩).2.screen.radiusKm = 10) ∧
    (∀ v : Int, loc.radius_km = some v → v ≠ 0 →
      (loadTeamLocation (.ok loc) ⟨some tok, s⟩).2.screen.radiusKm = v) := by
  constructor
  · rintro (h | h) <;> simp [loadTeamLocation, h]
  · intro v hv hne
    simp [loadTeamLocation, hv, hne]

/-- Witness for the amended C9 at a concrete response with `radius_km = 5`. -/
theorem C9_amended_radius_default_witness :
    (TeamLocation.mk 1 2 (some 5)).radius_km = some 5 ∧ (5 : Int) ≠ 0 ∧
    (loadTeamLocation (.ok ⟨1, 2, some 5⟩)
        ⟨some "tok", initialState⟩).2.screen.radiusKm = 5 :=
  ⟨rfl, by decide,
    (C9_amended_radius_default "tok" initialState ⟨1, 2, some 5⟩).2 5 rfl (by decide)⟩

/-- Claim C10: with latitude 0 and non-zero longitude the location-card
subtitle falls to the Not Set branch; the radius subtitle is shown exactly when
a location is loaded whose latitude is non-zero; and this predicate differs
from the warning banner condition, which at (0, 5) is hidden. -/
theorem C10_subtitle_vs_banner :
    (∀ loc : Option TeamLocation,
      showRadiusSubtitle loc = true ↔ ∃ l, loc = some l ∧ l.latitude ≠ 0) ∧
    showRadiusSubtitle (some ⟨0, 5, none⟩) = false ∧
    locationSubtitle (some ⟨0, 5, none⟩) 10 = "⚠️ Not Set - Click to Set" ∧
    showWarningBanner (some ⟨0, 5, none⟩) = false := by
  refine ⟨?_, by decide, by decide, by decide⟩
  intro loc
  cases loc with
  | none => simp [showRadiusSubtitle]
  | some l => simp [showRadiusSubtitle]

/-- Claim C3: one execution of the nearby-data loader either leaves both lists
unchanged, or (only when a token is stored and both GETs succeeded) replaces
both lists together from the two response bodies; whenever either request
fails, both lists keep their prior values. -/
theorem C3_nearby_atomic (reportsResp : HttpResult (Option (List Report)))
    (panicsResp : HttpResult (Option (List Panic))) (w : World) :
    (((loadNearbyData reportsResp panicsResp w).2.screen.nearbyReports =
        w.screen.nearbyReports ∧
      (loadNearbyData reportsResp panicsResp w).2.screen.nearbyPanics =
        w.screen.nearbyPanics) ∨
     (∃ tok rd pd, w.store = some tok ∧ reportsResp = .ok rd ∧ panicsResp = .ok pd ∧
      (loadNearbyData reportsResp panicsResp w).2.screen.nearbyReports = rd.getD [] ∧
      (loadNearbyData reportsResp panicsResp w).2.screen.nearbyPanics = pd.getD [])) ∧
    (∀ st d, (reportsResp = .err st d ∨ panicsResp = .err st d) →
      (loadNearbyData reportsResp panicsResp w).2.screen.nearbyReports =
        w.screen.nearbyReports ∧
      (loadNearbyData reportsResp panicsResp w).2.screen.nearbyPanics =
        w.screen.nearbyPanics) := by
  obtain ⟨store, s⟩ := w
  cases store with
  | none =>
    cases reportsResp <;> cases panicsResp <;> simp [loadNearbyData]
  | some tok =>
    cases reportsResp with
    | ok rd =>
      cases panicsResp with
      | ok pd =>
        constructor
        · exact Or.inr ⟨tok, rd, pd, rfl, rfl, rfl, rfl, rfl⟩
        · intro st d h
          rcases h with h | h <;> simp at h
      | err st d =>
        constructor
        · left
          simp only [loadNearbyData]
          split <;> simp
        · intro st2 d2 _
          simp only [loadNearbyData]
          split <;> simp
    | err st d =>
      constructor
      · left
        simp only [loadNearbyData]
        split <;> simp
      · intro st2 d2 _
        simp only [loadNearbyData]
        split <;> simp

/-- Claim C6 fails as stated: with the non-empty input "alice" but no stored
token, `handleSearch` redirects to login and never POSTs the term. -/
theorem C6_counterexample :
    (handleSearch "alice" (.ok "data") ⟨none, initialState⟩).1 =
      [Effect.navReplace "/auth/login"] ∧
    Effect.httpPost "/api/security/search-user" "alice" ∉
      (handleSearch "alice" (.ok "data") ⟨none, initialState⟩).1 := by
  decide

/-- Claim C6 amended: empty/whitespace-only input yields exactly a validation
alert and no network call; non-empty trimmed input with a stored token POSTs
the trimmed term; non-empty trimmed input with no stored token redirects to
login without any network call. -/
theorem C6_amended_search (searchTerm : String) (resp : HttpResult String)
    (w : World) :
    (jsTrim searchTerm = "" →
      (handleSearch searchTerm resp w).1 =
        [Effect.alert "Error" "Please enter phone or email"]) ∧
    (jsTrim searchTerm ≠ "" → ∀ tok, w.store = some tok →
      Effect.httpPost "/api/security/search-user" (jsTrim searchTerm) ∈
        (handleSearch searchTerm resp w).1) ∧
    (jsTrim searchTerm ≠ "" → w.store = none →
      (handleSearch searchTerm resp w).1 = [Effect.navReplace "/auth/login"]) := by
  refine ⟨?_, ?_, ?_⟩
  · intro h
    simp [handleSearch, h]
  · intro h tok htok
    cases resp with
    | ok data => simp [handleSearch, if_neg h, htok]
    | err st d =>
      simp only [handleSearch, if_neg h, htok]
      by_cases h401 : st = some 401 <;> simp [h401]
  · intro h hnone
    simp [handleSearch, if_neg h, hnone]

/-- Witness for the amended C6: the input " alice " trims to "alice", which is
POSTed when a token is stored. -/
theorem C6_amended_search_witness :
    jsTrim " alice " ≠ "" ∧
    Effect.httpPost "/api/security/search-user" (jsTrim " alice ") ∈
      (handleSearch " alice " (.ok "d") ⟨some "tok", initialState⟩).1 :=
  ⟨by decide,
    (C6_amended_search " alice " (.ok "d") ⟨some "tok", initialState⟩).2.1
      (by decide) "tok" rfl⟩


/-- Holds when the request failed with HTTP status 401
(the `error?.response?.status === 401` test of the source). -/
def HttpResult.is401 {α : Type} : HttpResult α → Bool
  | .ok _ => false
  | .err st _ => st = some 401

/-- The nearby-data pair clears the session exactly when the first rejection
of the `Promise.all` carries status 401: the reports request failed with 401,
or the reports request succeeded and the panics request failed with 401. -/
def tick401 (t : TickEnv) : Bool :=
  match t.reportsResp with
  | .err st _ => st = some 401
  | .ok _ =>
    match t.panicsResp with
    | .err st _ => st = some 401
    | .ok _ => false

lemma loadAgentProfile_store (resp : HttpResult (Option String)) (w : World) :
    (loadAgentProfile resp w).2.store = w.store := by
  obtain ⟨store, s⟩ := w
  cases store with
  | none => rfl
  | some tok =>
    cases resp with
    | ok o =>
      cases o with
      | none => rfl
      | some fn => by_cases hfn : fn.isEmpty <;> simp [loadAgentProfile, hfn]
    | err st d => rfl

lemma loadAgentProfile_no_auth_effects (resp : HttpResult (Option String))
    (w : World) :
    (loadAgentProfile resp w).1.count Effect.clearAuth = 0 ∧
    (loadAgentProfile resp w).1.count (Effect.navReplace "/auth/login") = 0 := by
  obtain ⟨store, s⟩ := w
  cases store with
  | none => exact ⟨rfl, rfl⟩
  | some tok =>
    cases resp with
    | ok o =>
      cases o with
      | none => exact ⟨rfl, rfl⟩
      | some fn => by_cases hfn : fn.isEmpty <;> simp [loadAgentProfile, hfn]
    | err st d => exact ⟨rfl, rfl⟩

lemma loadTeamLocation_store (resp : HttpResult TeamLocation) (w : World)
    (h : resp.is401 = false) : (loadTeamLocation resp w).2.store = w.store := by
  obtain ⟨store, s⟩ := w
  cases store with
  | none => rfl
  | some tok =>
    cases resp with
    | ok d => rfl
    | err st d =>
      have hne : ¬ st = some 401 := by
        simpa [HttpResult.is401] using h
      simp [loadTeamLocation, hne]

lemma loadNearbyData_store (t : TickEnv) (w : World) (h : tick401 t = false) :
    (loadNearbyData t.reportsResp t.panicsResp w).2.store = w.store := by
  obtain ⟨r, p⟩ := t
  obtain ⟨store, s⟩ := w
  cases store with
  | none => rfl
  | some tok =>
    cases r with
    | ok rd =>
      cases p with
      | ok pd => rfl
      | err st d =>
        have hne : ¬ st = some 401 := by
          simpa [tick401] using h
        simp [loadNearbyData, hne]
    | err st d =>
      have hne : ¬ st = some 401 := by
        simpa [tick401] using h
      simp [loadNearbyData, hne]

lemma loadNearbyData_gets (r : HttpResult (Option (List Report)))
    (p : HttpResult (Option (List Panic))) (w : World)
    (hw : w.store.isSome = true) :
    Effect.httpGet "/api/security/nearby-reports" ∈ (loadNearbyData r p w).1 ∧
    Effect.httpGet "/api/security/nearby-panics" ∈ (loadNearbyData r p w).1 := by
  obtain ⟨store, s⟩ := w
  cases store with
  | none => simp at hw
  | some tok =>
    cases r <;> cases p <;> simp only [loadNearbyData] <;>
      first
      | (split <;> simp)
      | simp

lemma runTicks_spec (ticks : List TickEnv) :
    ∀ w : World, w.store.isSome = true → (∀ t ∈ ticks, tick401 t = false) →
      (runTicks ticks w).1.length = ticks.length ∧
      (∀ e ∈ (runTicks ticks w).1,
        Effect.httpGet "/api/security/nearby-reports" ∈ e ∧
        Effect.httpGet "/api/security/nearby-panics" ∈ e) ∧
      (runTicks ticks w).2.store = w.store := by
  induction ticks with
  | nil =>
    intro w hw hts
    refine ⟨rfl, ?_, rfl⟩
    intro e he
    simp [runTicks] at he
  | cons t ts ih =>
    intro w hw hts
    have ht : tick401 t = false := hts t (List.mem_cons_self t ts)
    have hstore : (loadNearbyData t.reportsResp t.panicsResp w).2.store = w.store :=
      loadNearbyData_store t w ht
    have hw2 : (loadNearbyData t.reportsResp t.panicsResp w).2.store.isSome = true := by
      rw [hstore]; exact hw
    have hgets := loadNearbyData_gets t.reportsResp t.panicsResp w hw
    obtain ⟨ihlen, ihmem, ihstore⟩ :=
      ih (loadNearbyData t.reportsResp t.panicsResp w).2 hw2
        (fun u hu => hts u (List.mem_cons_of_mem _ hu))
    refine ⟨?_, ?_, ?_⟩
    · simp [runTicks, ihlen]
    · intro e he
      simp only [runTicks, List.mem_cons] at he
      rcases he with rfl | he
      · exact hgets
      · exact ihmem e he
    · simp only [runTicks]
      rw [ihstore, hstore]

lemma runTicks_no_store (ticks : List TickEnv) :
    ∀ w : World, w.store = none →
      runTicks ticks w = (List.replicate ticks.length [], w) := by
  induction ticks with
  | nil => intro w hw; rfl
  | cons t ts ih =>
    intro w hw
    have hload : loadNearbyData t.reportsResp t.panicsResp w = ([], w) := by
      obtain ⟨store, s⟩ := w
      simp only at hw
      subst hw
      rfl
    simp [runTicks, hload, ih w hw, List.replicate_succ]

lemma loadTeamLocation_401 (d : Option String) (w : World) (tok : String)
    (hw : w.store = some tok) :
    loadTeamLocation (.err (some 401) d) w =
      ([Effect.httpGet "/api/security/team-location", Effect.clearAuth,
        Effect.navReplace "/auth/login"], { w with store := none }) := by
  obtain ⟨st, sc⟩ := w
  simp only at hw
  subst hw
  simp [loadTeamLocation]

lemma initializeScreen_happy (metadata : UserMetadata)
    (pr : HttpResult (Option String)) (lo : HttpResult TeamLocation)
    (re : HttpResult (Option (List Report))) (pa : HttpResult (Option (List Panic)))
    (tok : String) (s : ScreenState) (hrole : metadata.role = "security") :
    initializeScreen metadata pr lo re pa ⟨some tok, s⟩ =
      ((loadAgentProfile pr ⟨some tok, { s with loading := true }⟩).1 ++
        (loadTeamLocation lo
          (loadAgentProfile pr ⟨some tok, { s with loading := true }⟩).2).1 ++
        (loadNearbyData re pa
          (loadTeamLocation lo
            (loadAgentProfile pr ⟨some tok, { s with loading := true }⟩).2).2).1,
       { (loadNearbyData re pa
            (loadTeamLocation lo
              (loadAgentProfile pr ⟨some tok, { s with loading := true }⟩).2).2).2 with
         screen := { (loadNearbyData re pa
            (loadTeamLocation lo
              (loadAgentProfile pr ⟨some tok, { s with loading := true }⟩).2).2).2.screen with
           loading := false } }) := by
  simp [initializeScreen, hrole]

lemma initializeScreen_badRole (metadata : UserMetadata)
    (pr : HttpResult (Option String)) (lo : HttpResult TeamLocation)
    (re : HttpResult (Option (List Report))) (pa : HttpResult (Option (List Panic)))
    (tok : String) (s : ScreenState) (hrole : metadata.role ≠ "security") :
    initializeScreen metadata pr lo re pa ⟨some tok, s⟩ =
      ([Effect.alert "Access Denied" "Security access required",
        Effect.navReplace "/auth/login"],
       ⟨some tok, { s with loading := true }⟩) := by
  simp [initializeScreen, hrole]


/-- Claim C5: mounting with no stored token navigates to login and issues no
backend HTTP call, at mount or at any subsequent 30-second tick: the mount
phase emits exactly the login redirect and every tick emits no effect at all
(the interval callback aborts on the missing token before any request). -/
theorem C5_no_token_no_calls (env : MountEnv) (ticks : List TickEnv)
    (s : ScreenState) :
    (mountedLifetime env ticks ⟨none, s⟩).1.1 = [Effect.navReplace "/auth/login"] ∧
    ∀ e ∈ (mountedLifetime env ticks ⟨none, s⟩).1.2, e = [] := by
  have hmount : initializeScreen env.metadata env.profileResp env.locResp
      env.reportsResp env.panicsResp ⟨none, s⟩ =
      ([Effect.navReplace "/auth/login"], ⟨none, { s with loading := true }⟩) := rfl
  have hticks := runTicks_no_store ticks (⟨none, { s with loading := true }⟩ : World) rfl
  constructor
  · simp [mountedLifetime, hmount]
  · intro e he
    simp only [mountedLifetime, hmount, hticks] at he
    exact List.eq_of_mem_replicate he

/-- Claim C4 fails as stated: in the mounted lifetime that starts with no
stored token, the nearby-data fetch is not invoked at mount (t = 0) — the
mount phase performs no nearby GET at all — contradicting the claim's
universal "invoked once at mount" over every mounted lifetime. -/
theorem C4_counterexample :
    Effect.httpGet "/api/security/nearby-reports" ∉
      (mountedLifetime ⟨⟨"security"⟩, .ok none, .ok ⟨1, 1, some 5⟩, .ok (some []),
        .ok (some [])⟩ [] ⟨none, initialState⟩).1.1 ∧
    Effect.httpGet "/api/security/nearby-panics" ∉
      (mountedLifetime ⟨⟨"security"⟩, .ok none, .ok ⟨1, 1, some 5⟩, .ok (some []),
        .ok (some [])⟩ [] ⟨none, initialState⟩).1.1 := by
  decide

/-- Claim C4 amended: when a token is stored, the role is "security", and no
request of the lifetime fails with status 401 (a 401 clears the stored session
and redirects to login), the nearby-data fetch is performed during mount
initialization (t = 0) and at every 30-second tick; the per-tick trace has
exactly one entry per tick fired before unmount, and the trace is finite
because `clearInterval` cancels the timer at unmount, so no invocation occurs
after it. -/
theorem C4_amended_polling (env : MountEnv) (ticks : List TickEnv) (tok : String)
    (s : ScreenState) (hrole : env.metadata.role = "security")
    (hloc : env.locResp.is401 = false)
    (hmount : tick401 ⟨env.reportsResp, env.panicsResp⟩ = false)
    (hticks : ∀ t ∈ ticks, tick401 t = false) :
    (Effect.httpGet "/api/security/nearby-reports" ∈
       (mountedLifetime env ticks ⟨some tok, s⟩).1.1 ∧
     Effect.httpGet "/api/security/nearby-panics" ∈
       (mountedLifetime env ticks ⟨some tok, s⟩).1.1) ∧
    (mountedLifetime env ticks ⟨some tok, s⟩).1.2.length = ticks.length ∧
    (∀ e ∈ (mountedLifetime env ticks ⟨some tok, s⟩).1.2,
      Effect.httpGet "/api/security/nearby-reports" ∈ e ∧
      Effect.httpGet "/api/security/nearby-panics" ∈ e) := by
  have hinit := initializeScreen_happy env.metadata env.profileResp env.locResp
    env.reportsResp env.panicsResp tok s hrole
  have hst1 : (loadAgentProfile env.profileResp
      ⟨some tok, { s with loading := true }⟩).2.store = some tok :=
    loadAgentProfile_store _ _
  have hst2 : (loadTeamLocation env.locResp
      (loadAgentProfile env.profileResp
        ⟨some tok, { s with loading := true }⟩).2).2.store = some tok := by
    rw [loadTeamLocation_store _ _ hloc, hst1]
  have hst3 : (loadNearbyData env.reportsResp env.panicsResp
      (loadTeamLocation env.locResp
        (loadAgentProfile env.profileResp
          ⟨some tok, { s with loading := true }⟩).2).2).2.store = some tok := by
    rw [loadNearbyData_store ⟨env.reportsResp, env.panicsResp⟩ _ hmount, hst2]
  have hgets := loadNearbyData_gets env.reportsResp env.panicsResp
    (loadTeamLocation env.locResp
      (loadAgentProfile env.profileResp
        ⟨some tok, { s with loading := true }⟩).2).2 (by rw [hst2]; rfl)
  obtain ⟨hlen, hmem, _⟩ := runTicks_spec ticks
    (initializeScreen env.metadata env.profileResp env.locResp
      env.reportsResp env.panicsResp ⟨some tok, s⟩).2
    (by rw [hinit]; simp [hst3]) hticks
  refine ⟨?_, ?_, ?_⟩
  · rw [mountedLifetime, hinit]
    constructor
    · exact List.mem_append_right _ hgets.1
    · exact List.mem_append_right _ hgets.2
  · rw [mountedLifetime]
    exact hlen
  · intro e he
    rw [mountedLifetime] at he
    exact hmem e he

/-- Witness for the amended C4: a concrete happy-path lifetime with one tick
satisfies the hypotheses and yields a one-entry tick trace. -/
theorem C4_amended_polling_witness :
    ((MountEnv.mk ⟨"security"⟩ (.ok (some "Jane Doe")) (.ok ⟨1, 2, some 5⟩)
        (.ok (some [])) (.ok (some []))).metadata.role = "security") ∧
    (mountedLifetime
        ⟨⟨"security"⟩, .ok (some "Jane Doe"), .ok ⟨1, 2, some 5⟩,
          .ok (some []), .ok (some [])⟩
        [⟨.ok (some []), .ok (some [])⟩]
        ⟨some "tok", initialState⟩).1.2.length =
      [(⟨.ok (some []), .ok (some [])⟩ : TickEnv)].length :=
  ⟨rfl,
    (C4_amended_polling
      ⟨⟨"security"⟩, .ok (some "Jane Doe"), .ok ⟨1, 2, some 5⟩,
        .ok (some []), .ok (some [])⟩
      [⟨.ok (some []), .ok (some [])⟩] "tok" initialState rfl rfl rfl
      (by intro t ht; rw [List.mem_singleton] at ht; subst ht; rfl)).2.1⟩

/-- Claim C1 fails as stated: with a stored token and role "user" the mount
alerts and redirects without fetching, but at the first 30-second tick the
interval callback — installed unconditionally by the `useEffect` and guarded
only by token presence — performs the nearby-reports GET. -/
theorem C1_counterexample :
    (mountedLifetime ⟨⟨"user"⟩, .ok none, .ok ⟨1, 1, some 5⟩, .ok (some []),
        .ok (some [])⟩ [⟨.ok (some []), .ok (some [])⟩]
        ⟨some "tok", initialState⟩).1.1 =
      [Effect.alert "Access Denied" "Security access required",
       Effect.navReplace "/auth/login"] ∧
    Effect.httpGet "/api/security/nearby-reports" ∈
      ((mountedLifetime ⟨⟨"user"⟩, .ok none, .ok ⟨1, 1, some 5⟩, .ok (some []),
          .ok (some [])⟩ [⟨.ok (some []), .ok (some [])⟩]
          ⟨some "tok", initialState⟩).1.2.headD []) := by
  decide

/-- Claim C1 amended: with a stored token and role ≠ "security", mounting
produces exactly the access-denied alert and login redirect, with no HTTP
request during initialization; but the 30-second interval is installed
regardless, and every tick performs both nearby GETs while the token remains
stored, because the interval callback checks only token presence, never the
role. -/
theorem C1_amended_role_gate (env : MountEnv) (t : TickEnv) (tok : String)
    (s : ScreenState) (hrole : env.metadata.role ≠ "security") :
    (mountedLifetime env [t] ⟨some tok, s⟩).1.1 =
      [Effect.alert "Access Denied" "Security access required",
       Effect.navReplace "/auth/login"] ∧
    (mountedLifetime env [t] ⟨some tok, s⟩).1.2.length = 1 ∧
    ∀ e ∈ (mountedLifetime env [t] ⟨some tok, s⟩).1.2,
      Effect.httpGet "/api/security/nearby-reports" ∈ e ∧
      Effect.httpGet "/api/security/nearby-panics" ∈ e := by
  have hinit := initializeScreen_badRole env.metadata env.profileResp env.locResp
    env.reportsResp env.panicsResp tok s hrole
  refine ⟨?_, ?_, ?_⟩
  · simp [mountedLifetime, hinit]
  · simp [mountedLifetime, hinit, runTicks]
  · intro e he
    simp only [mountedLifetime, hinit, runTicks, List.mem_cons,
      List.not_mem_nil, or_false] at he
    subst he
    exact loadNearbyData_gets t.reportsResp t.panicsResp _ rfl

/-- Witness for the amended C1 at role "user" with one tick. -/
theorem C1_amended_role_gate_witness :
    (("user" : String) ≠ "security") ∧
    (mountedLifetime ⟨⟨"user"⟩, .ok none, .ok ⟨1, 1, some 5⟩, .ok (some []),
        .ok (some [])⟩ [⟨.err none none, .ok (some [])⟩]
        ⟨some "tok", initialState⟩).1.1 =
      [Effect.alert "Access Denied" "Security access required",
       Effect.navReplace "/auth/login"] :=
  ⟨by decide,
    (C1_amended_role_gate
      ⟨⟨"user"⟩, .ok none, .ok ⟨1, 1, some 5⟩, .ok (some []), .ok (some [])⟩
      ⟨.err none none, .ok (some [])⟩ "tok" initialState (by decide)).1⟩

/-- Claim C2 fails as stated: the profile loader's catch swallows a 401 — its
effect trace is only the GET, with no session-clear and no redirect. -/
theorem C2_counterexample :
    (loadAgentProfile (.err (some 401) none) ⟨some "tok", initialState⟩).1 =
      [Effect.httpGet "/api/user/profile"] ∧
    Effect.clearAuth ∉
      (loadAgentProfile (.err (some 401) none) ⟨some "tok", initialState⟩).1 ∧
    Effect.navReplace "/auth/login" ∉
      (loadAgentProfile (.err (some 401) none) ⟨some "tok", initialState⟩).1 := by
  decide

/-- Claim C2 amended: a 401 on the team-location request or on the nearby-data
pair yields exactly one session-clear and one login redirect from that loader
— and across a whole initialization with a 401 team-location response, exactly
one session-clear and one redirect in total, because later loaders observe the
cleared store and abort; the profile loader, by contrast, swallows its 401:
no session-clear and no redirect. -/
theorem C2_amended_401 (tok : String) (s s2 s3 : ScreenState) (d : Option String)
    (meta : UserMetadata) (pr : HttpResult (Option String))
    (re : HttpResult (Option (List Report))) (pa : HttpResult (Option (List Panic)))
    (hrole : meta.role = "security") :
    ((loadTeamLocation (.err (some 401) d) ⟨some tok, s⟩).1.count
        Effect.clearAuth = 1 ∧
     (loadTeamLocation (.err (some 401) d) ⟨some tok, s⟩).1.count
        (Effect.navReplace "/auth/login") = 1 ∧
     (loadTeamLocation (.err (some 401) d) ⟨some tok, s⟩).2.store = none) ∧
    ((loadNearbyData (.err (some 401) d) pa ⟨some tok, s2⟩).1.count
        Effect.clearAuth = 1 ∧
     (loadNearbyData (.err (some 401) d) pa ⟨some tok, s2⟩).1.count
        (Effect.navReplace "/auth/login") = 1) ∧
    (∀ rd, (loadNearbyData (.ok rd) (.err (some 401) d) ⟨some tok, s2⟩).1.count
        Effect.clearAuth = 1 ∧
      (loadNearbyData (.ok rd) (.err (some 401) d) ⟨some tok, s2⟩).1.count
        (Effect.navReplace "/auth/login") = 1) ∧
    ((loadAgentProfile (.err (some 401) d) ⟨some tok, s3⟩).1.count
        Effect.clearAuth = 0 ∧
     (loadAgentProfile (.err (some 401) d) ⟨some tok, s3⟩).1.count
        (Effect.navReplace "/auth/login") = 0) ∧
    ((initializeScreen meta pr (.err (some 401) d) re pa ⟨some tok, s⟩).1.count
        Effect.clearAuth = 1 ∧
     (initializeScreen meta pr (.err (some 401) d) re pa ⟨some tok, s⟩).1.count
        (Effect.navReplace "/auth/login") = 1) := by
  have hloc : ∀ s' : ScreenState,
      loadTeamLocation (.err (some 401) d) ⟨some tok, s'⟩ =
        ([Effect.httpGet "/api/security/team-location", Effect.clearAuth,
          Effect.navReplace "/auth/login"], ⟨none, s'⟩) := by
    intro s'
    simp [loadTeamLocation]
  refine ⟨?_, ?_, ?_, ?_, ?_⟩
  · rw [hloc]
    exact ⟨rfl, rfl, rfl⟩
  · constructor <;> simp [loadNearbyData]
  · intro rd
    constructor <;> simp [loadNearbyData]
  · exact ⟨rfl, rfl⟩
  · rw [initializeScreen_happy meta pr (.err (some 401) d) re pa tok s hrole]
    have hprof := loadAgentProfile_no_auth_effects pr
      ⟨some tok, { s with loading := true }⟩
    have hstore : (loadAgentProfile pr
        ⟨some tok, { s with loading := true }⟩).2.store = some tok :=
      loadAgentProfile_store _ _
    rw [loadTeamLocation_401 d _ tok hstore]
    constructor
    · simp [List.count_append, hprof.1, loadNearbyData, List.count_cons]
    · simp [List.count_append, hprof.2, loadNearbyData, List.count_cons]

/-- Witness for the amended C2: a concrete 401 team-location response clears
the session exactly once. -/
theorem C2_amended_401_witness :
    (("security" : String) = "security") ∧
    (loadTeamLocation (.err (some 401) none) ⟨some "tok", initialState⟩).1.count
      Effect.clearAuth = 1 :=
  ⟨rfl,
    (C2_amended_401 "tok" initialState initialState initialState none
      ⟨"security"⟩ (.ok none) (.ok (some [])) (.ok (some [])) rfl).1.1⟩

end SecurityHome
